import Mathlib

/-!
Shallow embedding of the skill-evaluation core of `octapy/tools.py`
(`get_drifter_data` and `run_skill_analysis`), together with theorems
settling the specification claims about it.

Modelling conventions:
* Coordinates and distances are rationals (`ℚ`); the WGS84 geodesic
  inverse distance computed by `pyproj.Geod` is an external library and is
  modelled as a parameter `dist : ℚ → ℚ → ℚ → ℚ → ℚ`
  (`dist lon1 lat1 lon2 lat2`), constrained by non-negativity hypotheses
  where a claim needs them.
* An absolute timestamp is the tuple (year, month, day, hour) that
  `pd.to_datetime` composes from the drifter columns; for valid calendar
  fields, equality and lexicographic order of the tuple agree with
  equality and order of the real timestamps.
* A run's netCDF source is modelled as a `RunFile` already carrying
  absolute timestamps (the pandas epoch-arithmetic conversion of
  tools.py lines 280-282 is external library behaviour); an unreadable or
  malformed source is an `Except.error` entry in the file list, matching
  the exception `netCDF4.Dataset` would raise.
* Python exceptions that can escape the evaluator are the explicit error
  values of `PyError`: `indexError` for `[-1]`/`[0]`/row indexing on an
  empty or too-short array, `zeroDivisionError` for the float division
  `sep_distance / traj_len` at `traj_len = 0`, and `fileReadError` for an
  uncaught source-read exception (the code defines no error type of its
  own and attaches no run identifier).
-/

namespace Octapy

/-- Absolute timestamp composed from the year/month/day/hour columns. -/
abbrev Datetime := Int × Int × Int × Int

/-- One row of the drifter observation table: columns
`id`, `year`, `month`, `day`, `hour`, `lat`, `lon`. -/
structure DrifterRow where
  id : Int
  year : Int
  month : Int
  day : Int
  hour : Int
  lat : ℚ
  lon : ℚ
deriving DecidableEq

/-- The derived `datetime` column:
`pd.to_datetime({'year': ..., 'month': ..., 'day': ..., 'hour': ...})`
(tools.py lines 234-237). -/
def DrifterRow.datetime (r : DrifterRow) : Datetime :=
  (r.year, r.month, r.day, r.hour)

/-- Chronological (lexicographic) order of composed timestamps. -/
def dtLe (a b : Datetime) : Bool :=
  decide (a.1 < b.1) ||
    (decide (a.1 = b.1) && (decide (a.2.1 < b.2.1) ||
      (decide (a.2.1 = b.2.1) && (decide (a.2.2.1 < b.2.2.1) ||
        (decide (a.2.2.1 = b.2.2.1) && decide (a.2.2.2 ≤ b.2.2.2))))))

/-- Model of `get_drifter_data` (tools.py lines 222-240): derive the datetime
column, then keep the rows whose `id` equals `drifter_id`.  The function
only filters; it never reorders the rows. -/
def get_drifter_data (rows : List DrifterRow) (drifter_id : Int) :
    List DrifterRow :=
  rows.filter (fun r => decide (r.id = drifter_id))

/-- One simulated run's netCDF source: the converted time grid, the
`[particle, time-step]` latitude and longitude matrices, and the size of
the `release` variable (`rootgrp['release'].size`). -/
structure RunFile where
  times : List Datetime
  lats : List (List ℚ)
  lons : List (List ℚ)
  releaseSize : Nat
deriving DecidableEq

/-- Python exceptions the evaluator can raise, none of them caught. -/
inductive PyError where
  | indexError
  | zeroDivisionError
  | fileReadError (msg : String)
deriving DecidableEq

/-- The four fields stored per (run, particle):
`np.array([times[0], traj_len, sep_distance, s])` (tools.py line 303). -/
structure SkillRecord where
  start_time : Datetime
  traj_len : ℚ
  sep_distance : ℚ
  skill : ℚ
deriving DecidableEq

/-- The external geodesic inverse distance
`dist lon1 lat1 lon2 lat2` in meters. -/
abbrev Dist := ℚ → ℚ → ℚ → ℚ → ℚ

/-- Sum of segment distances over consecutive (lon, lat) points. -/
def segSum (dist : Dist) : List (ℚ × ℚ) → ℚ
  | (lon1, lat1) :: (lon2, lat2) :: rest =>
      dist lon1 lat1 lon2 lat2 + segSum dist ((lon2, lat2) :: rest)
  | _ => 0

/-- Model of `geod.line_length(lons, lats)`: cumulative geodesic length along the
point sequence; fewer than two points give length `0`. -/
def line_length (dist : Dist) (lons lats : List ℚ) : ℚ :=
  segSum dist (lons.zip lats)

/-- The drifter rows kept by the mask
`drift_indices = drifter_data['datetime'].isin(times)`
(tools.py lines 284-286). -/
def alignedDrifter (drifter : List DrifterRow) (times : List Datetime) :
    List DrifterRow :=
  drifter.filter (fun r => decide (r.datetime ∈ times))

/-- The run timestamps kept by the mask
`model_indices = times.isin(drifter_data['datetime'])`
(tools.py line 288), applied to the time grid itself. -/
def alignedTimes (drifter : List DrifterRow) (times : List Datetime) :
    List Datetime :=
  times.filter (fun t => decide (t ∈ drifter.map DrifterRow.datetime))

/-- One particle row of the coordinate matrix sliced by `model_indices`
(`rootgrp['lat'][:, model_indices]`, tools.py lines 289-290): keep the
columns whose timestamp occurs among the drifter datetimes. -/
def alignRow (drifter : List DrifterRow) (times : List Datetime)
    (row : List ℚ) : List ℚ :=
  ((times.zip row).filter
      (fun p => decide (p.1 ∈ drifter.map DrifterRow.datetime))).map
    Prod.snd

/-- The per-particle body of the loop (tools.py lines 293-303), with the
Python evaluation order of failures: `drifter_lons[-1]` /
`model_lons[j, -1]` raise IndexError on empty aligned series, then
`sep_distance / traj_len` raises ZeroDivisionError when the trajectory
length is zero, then `times[0]` would raise IndexError on an empty grid. -/
def particle_skill (dist : Dist) (times : List Datetime)
    (drifter_lons drifter_lats model_lons model_lats : List ℚ) :
    Except PyError SkillRecord :=
  match drifter_lons.getLast?, drifter_lats.getLast?,
        model_lons.getLast?, model_lats.getLast? with
  | some dlon, some dlat, some mlon, some mlat =>
      if line_length dist model_lons model_lats = 0 then
        Except.error PyError.zeroDivisionError
      else
        match times.head? with
        | some t0 =>
            Except.ok
              { start_time := t0
                traj_len := line_length dist model_lons model_lats
                sep_distance := line_length dist [dlon, mlon] [dlat, mlat]
                skill := max 0 (1 -
                  line_length dist [dlon, mlon] [dlat, mlat] /
                    line_length dist model_lons model_lats) }
        | none => Except.error PyError.indexError
  | _, _, _, _ => Except.error PyError.indexError

/-- Left-to-right effectful map: the first raised exception aborts the
whole traversal, discarding every result computed so far. -/
def mapExcept (f : α → Except ε β) : List α → Except ε (List β)
  | [] => Except.ok []
  | x :: xs =>
      match f x with
      | Except.error e => Except.error e
      | Except.ok y =>
          match mapExcept f xs with
          | Except.error e => Except.error e
          | Except.ok ys => Except.ok (y :: ys)

/-- One run's records: the particle loop `for j in range(0, num_particles)`
(tools.py line 293), indexing each matrix with `j` whether or not the run
actually has that many particle rows. -/
def run_skill (dist : Dist) (drifter : List DrifterRow)
    (num_particles : Nat) (f : RunFile) :
    Except PyError (List SkillRecord) :=
  mapExcept (fun j =>
      match f.lons.get? j, f.lats.get? j with
      | some lonRow, some latRow =>
          particle_skill dist f.times
            ((alignedDrifter drifter f.times).map DrifterRow.lon)
            ((alignedDrifter drifter f.times).map DrifterRow.lat)
            (alignRow drifter f.times lonRow)
            (alignRow drifter f.times latRow)
      | _, _ => Except.error PyError.indexError)
    (List.range num_particles)

/-- The drifter rows actually used by the evaluator: `get_drifter_data`
followed by `drifter_data['datetime'].isin(date_range)`
(tools.py lines 268-269). -/
def filtered_drifter (rows : List DrifterRow) (drifter_id : Int)
    (date_range : List Datetime) : List DrifterRow :=
  (get_drifter_data rows drifter_id).filter
    (fun r => decide (r.datetime ∈ date_range))

/-- Model of `run_skill_analysis` (tools.py lines 243-304): filter the drifter
data, read the particle count from the first source
(`Dataset(skill_files[0])`, raising on an empty list or unreadable first
file), then process every source in order; any exception aborts the whole
evaluation. -/
def run_skill_analysis (dist : Dist) (rows : List DrifterRow)
    (drifter_id : Int) (skill_files : List (Except String RunFile))
    (date_range : List Datetime) :
    Except PyError (List (List SkillRecord)) :=
  match skill_files.head? with
  | none => Except.error PyError.indexError
  | some (Except.error msg) => Except.error (PyError.fileReadError msg)
  | some (Except.ok f0) =>
      mapExcept (fun file =>
          match file with
          | Except.error msg => Except.error (PyError.fileReadError msg)
          | Except.ok f =>
              run_skill dist (filtered_drifter rows drifter_id date_range)
                f0.releaseSize f)
        skill_files

/-! ### Concrete inputs used by witnesses and counterexamples -/

/-- A concrete executable stand-in for the external geodesic distance:
squared Euclidean distance in coordinate space (non-negative, zero only
at equal points), sufficient to exercise the evaluator's control flow. -/
def dist0 : Dist := fun lon1 lat1 lon2 lat2 =>
  (lon2 - lon1) * (lon2 - lon1) + (lat2 - lat1) * (lat2 - lat1)

/-- Timestamp 2020-01-01 at hour `h`. -/
def dt0 (h : Int) : Datetime := (2020, 1, 1, h)

/-- A drifter table row on 2020-01-01. -/
def mkRow (i h : Int) (lat lon : ℚ) : DrifterRow :=
  { id := i, year := 2020, month := 1, day := 1, hour := h,
    lat := lat, lon := lon }

/-- Two observations of drifter 7, both at (0, 0). -/
def rows1 : List DrifterRow := [mkRow 7 0 0 0, mkRow 7 1 0 0]

/-- A run with both grid hours aligned and one particle moving east. -/
def file1 : RunFile :=
  { times := [dt0 0, dt0 1], lats := [[0, 0]], lons := [[0, 1]],
    releaseSize := 1 }

def dr1 : List Datetime := [dt0 0, dt0 1]

/-- One observation of drifter 7. -/
def rows2 : List DrifterRow := [mkRow 7 0 0 0]

/-- A run grid sharing exactly one timestamp with the observations. -/
def file2 : RunFile :=
  { times := [dt0 0], lats := [[0]], lons := [[5]], releaseSize := 1 }

def dr2 : List Datetime := [dt0 0]

/-- A run grid sharing no timestamp with the observations. -/
def file3 : RunFile :=
  { times := [dt0 5], lats := [[0]], lons := [[5]], releaseSize := 1 }

/-- Observations of drifter 7 at hours 1 and 2 only. -/
def rows5 : List DrifterRow := [mkRow 7 1 0 0, mkRow 7 2 0 0]

/-- A run whose grid starts one hour before the first aligned
timestamp. -/
def file5 : RunFile :=
  { times := [dt0 0, dt0 1, dt0 2], lats := [[0, 0, 0]],
    lons := [[0, 1, 2]], releaseSize := 1 }

def dr5 : List Datetime := [dt0 1, dt0 2]

/-- Observations of drifter 7 with a duplicated timestamp at hour 1. -/
def rows6 : List DrifterRow :=
  [mkRow 7 0 0 0, mkRow 7 1 0 0, mkRow 7 1 0 5]

/-- A run aligned with both distinct observed hours. -/
def file6 : RunFile :=
  { times := [dt0 0, dt0 1], lats := [[0, 0]], lons := [[0, 1]],
    releaseSize := 1 }

def dr6 : List Datetime := [dt0 0, dt0 1]

/-- Two rows of drifter 1 stored in reverse chronological order. -/
def rows9 : List DrifterRow := [mkRow 1 2 0 0, mkRow 1 1 0 0]

/-- A second run source with three particle rows and `releaseSize` 3;
only its first particle is visited when it follows `file1`. -/
def file10 : RunFile :=
  { times := [dt0 0, dt0 1], lats := [[0, 0], [0, 0], [0, 0]],
    lons := [[0, 2], [0, 9], [0, 9]], releaseSize := 3 }

/-- A single aligned point with distinct endpoint coordinates. -/
def file2b : RunFile :=
  { times := [dt0 0], lats := [[3]], lons := [[4]], releaseSize := 1 }

/-- The record `run_skill_analysis` emits for `rows1` / `file1`. -/
def rec1 : SkillRecord :=
  { start_time := dt0 0, traj_len := 1, sep_distance := 1, skill := 0 }

/-- The record emitted for particle 0 of `file10` after `file1`. -/
def rec10 : SkillRecord :=
  { start_time := dt0 0, traj_len := 4, sep_distance := 4, skill := 0 }

/-- The record emitted for `rows5` / `file5`: its `start_time` is the
grid's hour 0, one hour before the first aligned observation. -/
def rec5 : SkillRecord :=
  { start_time := dt0 0, traj_len := 1, sep_distance := 4, skill := 0 }

/-- The record emitted for the duplicate-timestamp input
`rows6` / `file6`. -/
def rec6 : SkillRecord :=
  { start_time := dt0 0, traj_len := 1, sep_distance := 16, skill := 0 }

/-! ### Helper lemmas -/

theorem dist0_nonneg : ∀ a b c d, 0 ≤ dist0 a b c d := by
  intro a b c d
  exact add_nonneg (mul_self_nonneg _) (mul_self_nonneg _)

theorem segSum_nonneg {dist : Dist} (hdist : ∀ a b c d, 0 ≤ dist a b c d) :
    ∀ l : List (ℚ × ℚ), 0 ≤ segSum dist l := by
  intro l
  induction l with
  | nil => simp [segSum]
  | cons p rest ih =>
    cases rest with
    | nil =>
      obtain ⟨a, b⟩ := p
      simp [segSum]
    | cons q rest2 =>
      obtain ⟨a, b⟩ := p
      obtain ⟨c, d⟩ := q
      rw [segSum]
      exact add_nonneg (hdist a b c d) ih

theorem line_length_nonneg {dist : Dist}
    (hdist : ∀ a b c d, 0 ≤ dist a b c d) (lons lats : List ℚ) :
    0 ≤ line_length dist lons lats :=
  segSum_nonneg hdist _

theorem line_length_pair (dist : Dist) (a b c d : ℚ) :
    line_length dist [a, b] [c, d] = dist a c b d := by
  simp [line_length, segSum]

theorem mapExcept_ok_length {α β ε : Type} {f : α → Except ε β} :
    ∀ {l : List α} {ys : List β},
      mapExcept f l = Except.ok ys → ys.length = l.length := by
  intro l
  induction l with
  | nil =>
    intro ys h
    simp only [mapExcept] at h
    cases h
    rfl
  | cons x xs ih =>
    intro ys h
    rw [mapExcept] at h
    cases hfx : f x with
    | error e => rw [hfx] at h; cases h
    | ok y =>
      rw [hfx] at h
      cases hrec : mapExcept f xs with
      | error e => rw [hrec] at h; cases h
      | ok zs =>
        rw [hrec] at h
        cases h
        simp [ih hrec]

theorem mapExcept_ok_get {α β ε : Type} {f : α → Except ε β} :
    ∀ {l : List α} {ys : List β} {n : Nat} {y : β},
      mapExcept f l = Except.ok ys → ys.get? n = some y →
      ∃ x, l.get? n = some x ∧ f x = Except.ok y := by
  intro l
  induction l with
  | nil =>
    intro ys n y h hy
    simp only [mapExcept] at h
    cases h
    simp at hy
  | cons x xs ih =>
    intro ys n y h hy
    rw [mapExcept] at h
    cases hfx : f x with
    | error e => rw [hfx] at h; cases h
    | ok b =>
      rw [hfx] at h
      cases hrec : mapExcept f xs with
      | error e => rw [hrec] at h; cases h
      | ok bs =>
        rw [hrec] at h
        cases h
        cases n with
        | zero =>
          simp only [List.get?] at hy
          cases hy
          exact ⟨x, rfl, hfx⟩
        | succ m =>
          simp only [List.get?] at hy
          exact ih hrec hy

theorem mapExcept_ok_forall {α β ε : Type} {f : α → Except ε β} :
    ∀ {l : List α} {ys : List β},
      mapExcept f l = Except.ok ys → ∀ x ∈ l, ∃ y, f x = Except.ok y := by
  intro l
  induction l with
  | nil => intro ys _ x hx; cases hx
  | cons a xs ih =>
    intro ys h x hx
    rw [mapExcept] at h
    cases hfa : f a with
    | error e => rw [hfa] at h; cases h
    | ok b =>
      rw [hfa] at h
      cases hrec : mapExcept f xs with
      | error e => rw [hrec] at h; cases h
      | ok bs =>
        cases hx with
        | head => exact ⟨b, hfa⟩
        | tail _ hmem => exact ih hrec x hmem

/-- Inversion of the per-particle body: what an `Except.ok` result tells
us about the four emitted fields. -/
theorem particle_skill_ok_fields {dist : Dist} {times : List Datetime}
    {dlons dlats mlons mlats : List ℚ} {r : SkillRecord}
    (h : particle_skill dist times dlons dlats mlons mlats = Except.ok r) :
    ∃ dlon dlat mlon mlat t0,
      dlons.getLast? = some dlon ∧ dlats.getLast? = some dlat ∧
      mlons.getLast? = some mlon ∧ mlats.getLast? = some mlat ∧
      times.head? = some t0 ∧
      line_length dist mlons mlats ≠ 0 ∧
      r = { start_time := t0
            traj_len := line_length dist mlons mlats
            sep_distance := line_length dist [dlon, mlon] [dlat, mlat]
            skill := max 0 (1 -
              line_length dist [dlon, mlon] [dlat, mlat] /
                line_length dist mlons mlats) } := by
  unfold particle_skill at h
  split at h
  case h_2 => cases h
  case h_1 dlon dlat mlon mlat hd1 hd2 hm1 hm2 =>
    split at h
    · cases h
    · split at h
      case h_2 => cases h
      case h_1 t0 ht0 =>
        cases h
        exact ⟨dlon, dlat, mlon, mlat, t0, hd1, hd2, hm1, hm2, ht0,
          by assumption, rfl⟩

/-- Inversion of the whole evaluator: every record in a successful result
table arises from the per-particle body applied to the aligned series of
its run, with the particle loop bounded by the first source's count. -/
theorem analysis_record {dist : Dist} {rows : List DrifterRow} {did : Int}
    {files : List (Except String RunFile)} {dr : List Datetime}
    {table : List (List SkillRecord)} {i j : Nat}
    {run : List SkillRecord} {r : SkillRecord}
    (h : run_skill_analysis dist rows did files dr = Except.ok table)
    (hi : table.get? i = some run) (hj : run.get? j = some r) :
    ∃ f0 f lonRow latRow,
      files.head? = some (Except.ok f0) ∧
      files.get? i = some (Except.ok f) ∧
      j < f0.releaseSize ∧
      f.lons.get? j = some lonRow ∧
      f.lats.get? j = some latRow ∧
      particle_skill dist f.times
        ((alignedDrifter (filtered_drifter rows did dr) f.times).map
          DrifterRow.lon)
        ((alignedDrifter (filtered_drifter rows did dr) f.times).map
          DrifterRow.lat)
        (alignRow (filtered_drifter rows did dr) f.times lonRow)
        (alignRow (filtered_drifter rows did dr) f.times latRow) =
          Except.ok r := by
  unfold run_skill_analysis at h
  split at h
  · cases h
  · cases h
  case h_3 f0 heq =>
    obtain ⟨file, hfile, hfx⟩ := mapExcept_ok_get h hi
    cases file with
    | error msg => cases hfx
    | ok f =>
      simp only at hfx
      obtain ⟨x, hx, hpx⟩ := mapExcept_ok_get hfx hj
      have hjlt : j < f0.releaseSize := by
        have h1 := List.get?_eq_some.mp hx
        obtain ⟨hlt, _⟩ := h1
        simpa using hlt
      have hxj : x = j := by
        rw [List.get?_range hjlt] at hx
        cases hx
        rfl
      subst hxj
      split at hpx
      case h_2 => cases hpx
      case h_1 lonRow latRow hlon hlat =>
        exact ⟨f0, f, lonRow, latRow, heq, hfile, hjlt, hlon, hlat, hpx⟩

/-- Inversion for run lengths: every run's record list in a successful
result has exactly `releaseSize`-of-the-first-source entries. -/
theorem analysis_run_length {dist : Dist} {rows : List DrifterRow}
    {did : Int} {files : List (Except String RunFile)} {dr : List Datetime}
    {table : List (List SkillRecord)} {f0 : RunFile} {i : Nat}
    {run : List SkillRecord}
    (h : run_skill_analysis dist rows did files dr = Except.ok table)
    (h0 : files.head? = some (Except.ok f0))
    (hi : table.get? i = some run) :
    run.length = f0.releaseSize := by
  unfold run_skill_analysis at h
  split at h
  · cases h
  · cases h
  case h_3 f0' heq =>
    rw [h0] at heq
    cases heq
    obtain ⟨file, hfile, hfx⟩ := mapExcept_ok_get h hi
    cases file with
    | error msg => cases hfx
    | ok f =>
      simp only at hfx
      have := mapExcept_ok_length hfx
      simpa using this

theorem length_filter_mem {l m : List Datetime} (hl : l.Nodup) :
    (l.filter (fun x => decide (x ∈ m))).length =
      (l.toFinset ∩ m.toFinset).card := by
  rw [← List.toFinset_card_of_nodup (hl.filter _)]
  congr 1
  ext x
  simp

theorem alignedDrifter_map_datetime (drifter : List DrifterRow)
    (times : List Datetime) :
    (alignedDrifter drifter times).map DrifterRow.datetime =
      (drifter.map DrifterRow.datetime).filter
        (fun x => decide (x ∈ times)) := by
  unfold alignedDrifter
  rw [List.filter_map]
  rfl

theorem max_skill_le_one {S T : ℚ} (hS : 0 ≤ S) (hT : 0 < T) :
    max 0 (1 - S / T) ≤ 1 := by
  apply max_le (by norm_num)
  have h1 : 0 ≤ S / T := div_nonneg hS hT.le
  linarith

/-- Concrete evaluation of the embedded evaluator on `rows1` / `file1`. -/
theorem eval1 :
    run_skill_analysis dist0 rows1 7 [Except.ok file1] dr1 =
      Except.ok [[rec1]] := by
  norm_num [run_skill_analysis, run_skill, mapExcept, particle_skill,
    filtered_drifter, get_drifter_data, alignedDrifter, alignRow,
    line_length, segSum, dist0, dt0, mkRow, rows1, file1, dr1,
    List.range_succ, DrifterRow.datetime, rec1]

/-- Concrete evaluation on two runs whose sources disagree about the
particle count: the second run is still indexed with the first run's. -/
theorem eval10 :
    run_skill_analysis dist0 rows1 7
        [Except.ok file1, Except.ok file10] dr1 =
      Except.ok [[rec1], [rec10]] := by
  norm_num [run_skill_analysis, run_skill, mapExcept, particle_skill,
    filtered_drifter, get_drifter_data, alignedDrifter, alignRow,
    line_length, segSum, dist0, dt0, mkRow, rows1, file1, file10, dr1,
    List.range_succ, DrifterRow.datetime, rec1, rec10]

/-! ### Claims -/

/-- C1: for every run and particle of a successful evaluation whose
trajectory length is positive, the emitted skill score equals
`max 0 (1 - separation_distance / trajectory_length)`. -/
theorem skill_score_formula {dist : Dist} {rows : List DrifterRow}
    {did : Int} {files : List (Except String RunFile)} {dr : List Datetime}
    {table : List (List SkillRecord)} {i j : Nat}
    {run : List SkillRecord} {r : SkillRecord}
    (h : run_skill_analysis dist rows did files dr = Except.ok table)
    (hi : table.get? i = some run) (hj : run.get? j = some r)
    (hpos : 0 < r.traj_len) :
    r.skill = max 0 (1 - r.sep_distance / r.traj_len) := by
  obtain ⟨f0, f, lonRow, latRow, _, _, _, _, _, hps⟩ :=
    analysis_record h hi hj
  obtain ⟨dlon, dlat, mlon, mlat, t0, _, _, _, _, _, _, hr⟩ :=
    particle_skill_ok_fields hps
  subst hr
  rfl

/-- C1 witness: the formula evaluated on the concrete run `file1`. -/
theorem skill_score_formula_witness :
    rec1.skill = max 0 (1 - rec1.sep_distance / rec1.traj_len) :=
  @skill_score_formula dist0 rows1 7 [Except.ok file1] dr1 [[rec1]] 0 0
    [rec1] rec1 eval1 rfl rfl (by norm_num [rec1])

/-- C2 (amended): every skill score actually emitted by a successful
evaluation lies in `[0, 1]`, given that the geodesic distance is
non-negative; when the trajectory length is zero nothing is emitted at
all — an uncaught ZeroDivisionError propagates instead. -/
theorem skill_score_bounds {dist : Dist} {rows : List DrifterRow}
    {did : Int} {files : List (Except String RunFile)} {dr : List Datetime}
    {table : List (List SkillRecord)} {i j : Nat}
    {run : List SkillRecord} {r : SkillRecord}
    (hdist : ∀ a b c d, 0 ≤ dist a b c d)
    (h : run_skill_analysis dist rows did files dr = Except.ok table)
    (hi : table.get? i = some run) (hj : run.get? j = some r) :
    0 ≤ r.skill ∧ r.skill ≤ 1 := by
  obtain ⟨f0, f, lonRow, latRow, _, _, _, _, _, hps⟩ :=
    analysis_record h hi hj
  obtain ⟨dlon, dlat, mlon, mlat, t0, _, _, _, _, _, hne, hr⟩ :=
    particle_skill_ok_fields hps
  subst hr
  constructor
  · exact le_max_left _ _
  · exact max_skill_le_one (line_length_nonneg hdist _ _)
      (lt_of_le_of_ne (line_length_nonneg hdist _ _) (Ne.symm hne))

/-- C2 witness: the bounds evaluated on the concrete run `file1`. -/
theorem skill_score_bounds_witness : 0 ≤ rec1.skill ∧ rec1.skill ≤ 1 :=
  @skill_score_bounds dist0 rows1 7 [Except.ok file1] dr1 [[rec1]] 0 0
    [rec1] rec1 dist0_nonneg eval1 rfl rfl

/-- C2 counterexample: with a single aligned point (trajectory length 0)
the evaluator does not report a not-a-number skill score — the division
`sep_distance / traj_len` raises an uncaught ZeroDivisionError and no
record is emitted at all. -/
theorem skill_nan_counterexample :
    run_skill_analysis dist0 rows2 7 [Except.ok file2b] dr2 =
      Except.error PyError.zeroDivisionError := by
  norm_num [run_skill_analysis, run_skill, mapExcept, particle_skill,
    filtered_drifter, get_drifter_data, alignedDrifter, alignRow,
    line_length, segSum, dist0, dt0, mkRow, rows2, file2b, dr2,
    List.range_succ, DrifterRow.datetime]

/-- C3: the code crashes on degenerate alignments instead of reporting
not-a-number: one aligned point raises ZeroDivisionError at
`sep_distance / traj_len` (tools.py line 300), and zero aligned points
raise IndexError at `drifter_lons[-1]` (tools.py line 297). -/
theorem degenerate_alignment_crashes :
    run_skill_analysis dist0 rows2 7 [Except.ok file2] dr2 =
        Except.error PyError.zeroDivisionError ∧
      run_skill_analysis dist0 rows2 7 [Except.ok file3] dr2 =
        Except.error PyError.indexError := by
  constructor <;>
    norm_num [run_skill_analysis, run_skill, mapExcept, particle_skill,
      filtered_drifter, get_drifter_data, alignedDrifter, alignRow,
      line_length, segSum, dist0, dt0, mkRow, rows2, file2, file3, dr2,
      List.range_succ, DrifterRow.datetime]

/-- C4: every emitted separation distance is the geodesic distance
between the last aligned observed point and the last aligned simulated
point of that particle. -/
theorem separation_distance_endpoints {dist : Dist}
    {rows : List DrifterRow} {did : Int}
    {files : List (Except String RunFile)} {dr : List Datetime}
    {table : List (List SkillRecord)} {i j : Nat}
    {run : List SkillRecord} {r : SkillRecord}
    (h : run_skill_analysis dist rows did files dr = Except.ok table)
    (hi : table.get? i = some run) (hj : run.get? j = some r) :
    ∃ f lonRow latRow dlon dlat mlon mlat,
      files.get? i = some (Except.ok f) ∧
      f.lons.get? j = some lonRow ∧
      f.lats.get? j = some latRow ∧
      ((alignedDrifter (filtered_drifter rows did dr) f.times).map
          DrifterRow.lon).getLast? = some dlon ∧
      ((alignedDrifter (filtered_drifter rows did dr) f.times).map
          DrifterRow.lat).getLast? = some dlat ∧
      (alignRow (filtered_drifter rows did dr) f.times
          lonRow).getLast? = some mlon ∧
      (alignRow (filtered_drifter rows did dr) f.times
          latRow).getLast? = some mlat ∧
      r.sep_distance = dist dlon dlat mlon mlat := by
  obtain ⟨f0, f, lonRow, latRow, hh, hf, hjlt, hlon, hlat, hps⟩ :=
    analysis_record h hi hj
  obtain ⟨dlon, dlat, mlon, mlat, t0, h1, h2, h3, h4, _, _, hr⟩ :=
    particle_skill_ok_fields hps
  refine ⟨f, lonRow, latRow, dlon, dlat, mlon, mlat, hf, hlon, hlat,
    h1, h2, h3, h4, ?_⟩
  subst hr
  exact line_length_pair dist dlon mlon dlat mlat

/-- C4 witness: the endpoint property evaluated on `file1`. -/
theorem separation_distance_endpoints_witness :
    ∃ f lonRow latRow dlon dlat mlon mlat,
      ([Except.ok file1] : List (Except String RunFile)).get? 0 =
          some (Except.ok f) ∧
      f.lons.get? 0 = some lonRow ∧
      f.lats.get? 0 = some latRow ∧
      ((alignedDrifter (filtered_drifter rows1 7 dr1) f.times).map
          DrifterRow.lon).getLast? = some dlon ∧
      ((alignedDrifter (filtered_drifter rows1 7 dr1) f.times).map
          DrifterRow.lat).getLast? = some dlat ∧
      (alignRow (filtered_drifter rows1 7 dr1) f.times
          lonRow).getLast? = some mlon ∧
      (alignRow (filtered_drifter rows1 7 dr1) f.times
          latRow).getLast? = some mlat ∧
      rec1.sep_distance = dist0 dlon dlat mlon mlat :=
  @separation_distance_endpoints dist0 rows1 7 [Except.ok file1] dr1
    [[rec1]] 0 0 [rec1] rec1 eval1 rfl rfl

/-- C5 (amended): the `start_time` field of every emitted record is the
first timestamp of the run's converted time grid — `times[0]` — whether
or not that timestamp is aligned with any observation. -/
theorem start_time_grid_head {dist : Dist} {rows : List DrifterRow}
    {did : Int} {files : List (Except String RunFile)} {dr : List Datetime}
    {table : List (List SkillRecord)} {i j : Nat}
    {run : List SkillRecord} {r : SkillRecord}
    (h : run_skill_analysis dist rows did files dr = Except.ok table)
    (hi : table.get? i = some run) (hj : run.get? j = some r) :
    ∃ f, files.get? i = some (Except.ok f) ∧
      f.times.head? = some r.start_time := by
  obtain ⟨f0, f, lonRow, latRow, hh, hf, hjlt, hlon, hlat, hps⟩ :=
    analysis_record h hi hj
  obtain ⟨dlon, dlat, mlon, mlat, t0, _, _, _, _, ht0, _, hr⟩ :=
    particle_skill_ok_fields hps
  subst hr
  exact ⟨f, hf, ht0⟩

/-- C5 witness: the grid-head property evaluated on `file1`. -/
theorem start_time_grid_head_witness :
    ∃ f, ([Except.ok file1] : List (Except String RunFile)).get? 0 =
        some (Except.ok f) ∧
      f.times.head? = some rec1.start_time :=
  @start_time_grid_head dist0 rows1 7 [Except.ok file1] dr1
    [[rec1]] 0 0 [rec1] rec1 eval1 rfl rfl

/-- C5 counterexample: for `file5` (grid hours 0, 1, 2; observations at
hours 1 and 2 only) the emitted `start_time` is grid hour 0, while the
first aligned observed timestamp is hour 1. -/
theorem start_time_counterexample :
    run_skill_analysis dist0 rows5 7 [Except.ok file5] dr5 =
        Except.ok [[rec5]] ∧
      ((alignedDrifter (filtered_drifter rows5 7 dr5) file5.times).map
          DrifterRow.datetime).head? = some (dt0 1) ∧
      rec5.start_time ≠ dt0 1 := by
  refine ⟨?_, ?_, by decide⟩
  · norm_num [run_skill_analysis, run_skill, mapExcept, particle_skill,
      filtered_drifter, get_drifter_data, alignedDrifter, alignRow,
      line_length, segSum, dist0, dt0, mkRow, rows5, file5, dr5,
      List.range_succ, DrifterRow.datetime, rec5]
  · norm_num [filtered_drifter, get_drifter_data, alignedDrifter,
      dt0, mkRow, rows5, file5, dr5, DrifterRow.datetime]

/-- C6 (amended): when neither the observed datetimes nor the run's time
grid contain duplicates, the two alignment masks select the same number
of points and the same set of timestamps; the code performs no such
check itself and proceeds even when duplicates break the equality — no
`AlignmentError` exists. -/
theorem alignment_mask_symmetric (drifter : List DrifterRow)
    (times : List Datetime)
    (hd : (drifter.map DrifterRow.datetime).Nodup) (ht : times.Nodup) :
    (alignedDrifter drifter times).length =
        (alignedTimes drifter times).length ∧
      ((alignedDrifter drifter times).map DrifterRow.datetime).toFinset =
        (alignedTimes drifter times).toFinset := by
  have hmap := alignedDrifter_map_datetime drifter times
  constructor
  · have h1 : (alignedDrifter drifter times).length =
        ((alignedDrifter drifter times).map DrifterRow.datetime).length :=
      (List.length_map _ _).symm
    rw [h1, hmap, length_filter_mem hd]
    unfold alignedTimes
    rw [length_filter_mem ht, Finset.inter_comm]
  · rw [hmap]
    unfold alignedTimes
    ext x
    simp only [List.mem_toFinset, List.mem_filter, decide_eq_true_eq]
    tauto

/-- C6 witness: mask symmetry on the duplicate-free input `rows1`. -/
theorem alignment_mask_symmetric_witness :
    (alignedDrifter rows1 file1.times).length =
        (alignedTimes rows1 file1.times).length ∧
      ((alignedDrifter rows1 file1.times).map DrifterRow.datetime).toFinset =
        (alignedTimes rows1 file1.times).toFinset :=
  alignment_mask_symmetric rows1 file1.times (by decide) (by decide)

/-- C6 counterexample: with a duplicated observed timestamp the two
masks select 3 and 2 points respectively, yet the evaluator raises no
`AlignmentError` (none exists in the code) and emits a record computed
from the mismatched series. -/
theorem alignment_mask_counterexample :
    (alignedDrifter (filtered_drifter rows6 7 dr6) file6.times).length =
        3 ∧
      (alignedTimes (filtered_drifter rows6 7 dr6) file6.times).length =
        2 ∧
      run_skill_analysis dist0 rows6 7 [Except.ok file6] dr6 =
        Except.ok [[rec6]] := by
  refine ⟨by decide, by decide, ?_⟩
  norm_num [run_skill_analysis, run_skill, mapExcept, particle_skill,
    filtered_drifter, get_drifter_data, alignedDrifter, alignedTimes,
    alignRow, line_length, segSum, dist0, dt0, mkRow, rows6, file6, dr6,
    List.range_succ, DrifterRow.datetime, rec6]

/-- C7 (amended): an unreadable run source anywhere in the list makes
the whole evaluation fail — the read exception propagates uncaught, so
no partial results for the other runs are ever returned. -/
theorem run_error_aborts {dist : Dist} {rows : List DrifterRow}
    {did : Int} {files : List (Except String RunFile)}
    {dr : List Datetime} {msg : String}
    (hmem : Except.error msg ∈ files) :
    ∃ e, run_skill_analysis dist rows did files dr = Except.error e := by
  cases hres : run_skill_analysis dist rows did files dr with
  | error e => exact ⟨e, rfl⟩
  | ok table =>
    exfalso
    unfold run_skill_analysis at hres
    split at hres
    · cases hres
    · cases hres
    · obtain ⟨y, hy⟩ := mapExcept_ok_forall hres _ hmem
      cases hy

/-- C7 witness: the abort property at a concrete two-run list. -/
theorem run_error_aborts_witness :
    ∃ e, run_skill_analysis dist0 rows1 7
        [Except.ok file1, Except.error ("corrupt")] dr1 =
      Except.error e :=
  @run_error_aborts dist0 rows1 7
    [Except.ok file1, Except.error ("corrupt")] dr1 ("corrupt") (by simp)

/-- C7 counterexample: with a readable first run and an unreadable
second run, the evaluator returns only the uncaught read error — the
first run's successfully computed records are discarded and no
run-scoped `RunReadError` with a run identifier is produced. -/
theorem run_error_aborts_counterexample :
    run_skill_analysis dist0 rows1 7
        [Except.ok file1, Except.error ("corrupt")] dr1 =
      Except.error (PyError.fileReadError ("corrupt")) := by
  norm_num [run_skill_analysis, run_skill, mapExcept, particle_skill,
    filtered_drifter, get_drifter_data, alignedDrifter, alignRow,
    line_length, segSum, dist0, dt0, mkRow, rows1, file1, dr1,
    List.range_succ, DrifterRow.datetime]

/-- C8: if no row of the drifter source carries the requested id, the
accessor returns the empty trajectory and raises nothing. -/
theorem empty_drifter_result {rows : List DrifterRow} {did : Int}
    (h : ∀ r ∈ rows, r.id ≠ did) :
    get_drifter_data rows did = [] := by
  unfold get_drifter_data
  rw [List.filter_eq_nil_iff]
  intro r hr
  simpa using h r hr

/-- C8 witness: no row of `rows1` carries id 8. -/
theorem empty_drifter_result_witness : get_drifter_data rows1 8 = [] :=
  empty_drifter_result (by decide)

/-- C9 (amended): the accessor never sorts — its output is a subsequence
of the source, preserving the source's row order — and its trajectory's
derived timestamps are non-decreasing exactly when every pair of
matching source rows (those carrying the requested id) appears in the
source in non-decreasing timestamp order. -/
theorem trajectory_order_preserved (rows : List DrifterRow) (did : Int) :
    (get_drifter_data rows did).Sublist rows ∧
      (((get_drifter_data rows did).map DrifterRow.datetime).Pairwise
          (fun a b => dtLe a b = true) ↔
        rows.Pairwise (fun a b => a.id = did → b.id = did →
          dtLe a.datetime b.datetime = true)) := by
  constructor
  · exact List.filter_sublist rows
  · unfold get_drifter_data
    rw [List.pairwise_map, List.pairwise_filter]

/-- C9 counterexample: for a source whose matching rows are stored in
reverse chronological order, the accessor's trajectory is not
non-decreasing — it never sorts. -/
theorem trajectory_order_counterexample :
    ¬ ((get_drifter_data rows9 1).map DrifterRow.datetime).Pairwise
      (fun a b => dtLe a b = true) := by
  decide

/-- C10: every run's record list in a successful evaluation has exactly
as many entries as the first source's `release` variable — the particle
count is read once from `skill_files[0]` and bounds the loop of every
run, regardless of that run's own particle count. -/
theorem particle_count_from_first_run {dist : Dist}
    {rows : List DrifterRow} {did : Int}
    {files : List (Except String RunFile)} {dr : List Datetime}
    {table : List (List SkillRecord)} {f0 : RunFile} {i : Nat}
    {run : List SkillRecord}
    (h : run_skill_analysis dist rows did files dr = Except.ok table)
    (h0 : files.head? = some (Except.ok f0))
    (hi : table.get? i = some run) :
    run.length = f0.releaseSize :=
  analysis_run_length h h0 hi

/-- C10 witness: the second run `file10` declares 3 particles but its
emitted record list has length `file1.releaseSize = 1`. -/
theorem particle_count_from_first_run_witness :
    ([rec10] : List SkillRecord).length = file1.releaseSize :=
  @particle_count_from_first_run dist0 rows1 7
    [Except.ok file1, Except.ok file10] dr1 [[rec1], [rec10]] file1 1
    [rec10] eval10 rfl rfl

end Octapy
